import Mathlib

/-!
# Shallow embedding of the bcachefs journal write path (`src/libbcachefs/journal.c`)

This development embeds the journal reservation state machine of
`libbcachefs/journal.c` and proves the frozen claims about it.

Conventions:
* The file `journal.c` is the authority; its helpers that live in the headers
  `journal.h` / `journal_types.h` (not part of the sources at hand) are
  modelled from the specification and marked `Modelled from the spec:` in
  their doc comments.
* Machine integers are modelled as `Nat` (unsigned) and `Int` (where the C
  code uses signed `int` / `ssize_t` return values).  The packed 64-bit
  reservation word is modelled as a structure with one field per bit field;
  under the code's own invariants (`BUG_ON(u64s >= JOURNAL_ENTRY_CLOSED_VAL)`)
  none of the modelled arithmetic can overflow its bit field, so no modular
  reduction is required on the fields themselves.
* The sequential model collapses each `atomic64_cmpxchg` retry loop into its
  single-thread effect: one test of the old state followed by one update.
* I/O-side bookkeeping that no claim depends on (time statistics, tracing,
  lockdep assertions, delayed-work scheduling, `prev_buf_sectors`
  accounting, `bucket_journal_seq` sweeps) is not modelled; the doc comment
  of each function lists what it covers.
-/

namespace BcachefsJournal

/-- Modelled from the spec: `cur_entry_offset` is a 20-bit field of the packed
reservation word holding either a real u64 offset or one of two sentinels
CLOSED / ERROR that sit above every real offset (spec §3); the numeric values
live in `journal.h`, which is not among the sources.  CLOSED is the largest
value but one. -/
def JOURNAL_ENTRY_CLOSED_VAL : Nat := 1048574

/-- Modelled from the spec: the ERROR sentinel, the largest value of the
20-bit `cur_entry_offset` field (spec §3, §4.7). -/
def JOURNAL_ENTRY_ERROR_VAL : Nat := 1048575

/-- Errno constant `EIO` (journal error; `journal_entry_open` returns `-EIO`). -/
def EIO : Int := 5

/-- Errno constant `EROFS` (insufficient rw devices; `__journal_res_get`
returns `-EROFS` when `journal_buf_switch` reports `JOURNAL_ENTRY_ERROR`). -/
def EROFS : Int := 30

/-- Errno constant `ENOSPC` (journal-bucket allocation failed). -/
def ENOSPC : Int := 28

/-- Modelled from the spec: maximum journal buffer capacity in bytes
(spec §3 "power-of-two capacity between MIN and MAX"); the numeric value
lives in `journal_types.h`, which is not among the sources. -/
def JOURNAL_ENTRY_SIZE_MAX : Nat := 4194304

/-- Modelled from the spec: number of btrees whose roots are appended to each
journal entry at dispatch time (spec §6); the value lives in
`bcachefs_format.h`, which is not among the sources.  The claims are proved
independently of the concrete value. -/
def BTREE_ID_NR : Nat := 6

/-- Modelled from the spec: size in u64 units of a `jset_entry` chunk header
(spec §6 on-disk layout); the value lives in `bcachefs_format.h`, which is not
among the sources. -/
def JSET_KEYS_U64s : Nat := 2

/-- Modelled from the spec: maximal size in u64 units of an extent key
(spec §6); the value lives in `bcachefs_format.h`, which is not among the
sources. -/
def BKEY_EXTENT_U64s_MAX : Nat := 8

/-- Modelled from the spec: `sizeof(struct jset) / sizeof(u64)`, the journal
entry header size in u64 units (spec §6 lists the header fields); the struct
lives in `bcachefs_format.h`, which is not among the sources. -/
def JSET_HEADER_U64s : Nat := 7

/-- Modelled from the spec: the packed 64-bit `union journal_res_state`
(spec §3 "ReservationStateAtom"): per-buffer reservation counts, the current
entry offset (with its two sentinels), the current buffer index and the
`prev_buf_unwritten` bit.  The union itself is declared in
`journal_types.h`, which is not among the sources; every transition on it is
taken from `journal.c`. -/
structure JournalResState where
  buf0_count : Nat
  buf1_count : Nat
  cur_entry_offset : Nat
  idx : Bool
  prev_buf_unwritten : Bool
  deriving Repr, DecidableEq

/-- Modelled from the spec: `journal_state_inc` (`journal.h`) bumps the
reservation count of the buffer selected by `idx` ("increment the buffer's
reservation count", spec §4.2). -/
def journal_state_inc (s : JournalResState) : JournalResState :=
  if s.idx then { s with buf1_count := s.buf1_count + 1 }
  else { s with buf0_count := s.buf0_count + 1 }

/-- `journal_state_count s i`: the reservation count of buffer `i`
(`journal.h` helper, modelled from the spec). -/
def journal_state_count (s : JournalResState) (i : Bool) : Nat :=
  if i then s.buf1_count else s.buf0_count

/-- One in-memory journal buffer (`struct journal_buf`, modelled from the
spec §3 "JournalBuf"): the inode-presence bitmap, the entry header fields
`data->seq` / `data->u64s` that `journal.c` reads and writes, the byte
capacity `size` and `disk_sectors` chosen at open time. -/
structure JournalBuf where
  has_inode : Nat → Bool
  data_seq : Nat
  data_u64s : Nat
  size : Nat
  disk_sectors : Nat

/-- The journal object (`struct journal`), restricted to the fields that
`journal.c` manipulates in the verified operations: the packed reservation
word, the sequence counter `seq` (`journal_cur_seq`), the published
`cur_entry_u64s`, the two rotating buffers, the pin fifo (modelled as the
list of per-entry refcounts plus its fixed capacity), `buf_size_want`, and
`cur_buf_sectors`.  The per-device space query
`bch2_journal_entry_sectors` (defined in `journal_io.c`, not among the
sources) is modelled from the spec (§4.1 step 4 "the per-device space
query") as the oracle field `entry_sectors`. -/
structure Journal where
  reservations : JournalResState
  seq : Nat
  cur_entry_u64s : Nat
  buf0 : JournalBuf
  buf1 : JournalBuf
  pin : List Nat
  pin_capacity : Nat
  buf_size_want : Nat
  cur_buf_sectors : Nat
  entry_sectors : Int

/-- `journal_cur_buf` (`journal.h`, modelled from the spec): the buffer
selected by `reservations.idx`. -/
def journal_cur_buf (j : Journal) : JournalBuf :=
  if j.reservations.idx then j.buf1 else j.buf0

/-- `journal_prev_buf` (`journal.h`, modelled from the spec): the buffer not
selected by `reservations.idx`. -/
def journal_prev_buf (j : Journal) : JournalBuf :=
  if j.reservations.idx then j.buf0 else j.buf1

/-- Apply `f` to the buffer selected by index `i`. -/
def update_buf (j : Journal) (i : Bool) (f : JournalBuf → JournalBuf) : Journal :=
  if i then { j with buf1 := f j.buf1 } else { j with buf0 := f j.buf0 }

/-- `journal_entry_is_open` (journal.c line 20): the current entry accepts
reservations iff `cur_entry_offset` is below the CLOSED sentinel. -/
def journal_entry_is_open (j : Journal) : Bool :=
  j.reservations.cur_entry_offset < JOURNAL_ENTRY_CLOSED_VAL

/-- `fifo_free(&j->pin)`: free slots of the pin fifo. -/
def pin_fifo_free (j : Journal) : Nat :=
  j.pin_capacity - j.pin.length

/-- Result of `journal_buf_switch` (journal.c lines 78-83): the anonymous
enum `JOURNAL_ENTRY_ERROR / JOURNAL_ENTRY_INUSE / JOURNAL_ENTRY_CLOSED /
JOURNAL_UNLOCKED`. -/
inductive BufSwitchResult where
  | entryError
  | entryInuse
  | entryClosed
  | unlocked
  deriving Repr, DecidableEq

/-- The CAS loop of `journal_buf_switch` (journal.c lines 92-115), i.e. its
effect on the packed reservation word alone: return CLOSED / ERROR / INUSE
without touching the word when the entry is already closed, errored, or the
previous buffer is still being written; otherwise bump the current buffer's
reservation count by the sentinel "write" reservation
(`journal_state_inc`), set `cur_entry_offset = JOURNAL_ENTRY_CLOSED_VAL`,
toggle `idx` and set `prev_buf_unwritten`. -/
def journal_buf_switch_res (s : JournalResState) : BufSwitchResult × JournalResState :=
  if s.cur_entry_offset = JOURNAL_ENTRY_CLOSED_VAL then (.entryClosed, s)
  else if s.cur_entry_offset = JOURNAL_ENTRY_ERROR_VAL then (.entryError, s)
  else if s.prev_buf_unwritten then (.entryInuse, s)
  else
    (.unlocked,
      { journal_state_inc s with
          cur_entry_offset := JOURNAL_ENTRY_CLOSED_VAL
          idx := !s.idx
          prev_buf_unwritten := true })

/-- `journal_pin_new_entry` (journal.c lines 45-60): increment `j->seq` and
push a fresh pin slot with refcount `count` onto the pin fifo. -/
def journal_pin_new_entry (j : Journal) (count : Nat) : Journal :=
  { j with seq := j.seq + 1, pin := j.pin ++ [count] }

/-- `bch2_journal_buf_init` (journal.c lines 62-71): clear the current
buffer's `has_inode` bitmap, zero its entry header and stamp the current
sequence number into it. -/
def bch2_journal_buf_init (j : Journal) : Journal :=
  update_buf j j.reservations.idx fun buf =>
    { buf with has_inode := fun _ => false, data_u64s := 0, data_seq := j.seq }

/-- `journal_buf_switch` (journal.c lines 78-151).  The CAS loop is
`journal_buf_switch_res`; on success the function records the closed entry's
final `u64s` into its header (`buf->data->u64s = old.cur_entry_offset`),
allocates a new pin slot with refcount 1 while incrementing `seq`
(`journal_pin_new_entry j 1`) and initializes the new current buffer
(`bch2_journal_buf_init`).  `prev_buf_sectors` accounting, reclaim,
`last_seq` stamping, work-queue and wakeup calls are I/O-side bookkeeping
not used by the verified claims and are not modelled. -/
def journal_buf_switch (j : Journal) : BufSwitchResult × Journal :=
  match journal_buf_switch_res j.reservations with
  | (.unlocked, s') =>
    let oldIdx := j.reservations.idx
    let oldOffset := j.reservations.cur_entry_offset
    let j1 := { j with reservations := s' }
    let j2 := update_buf j1 oldIdx fun buf => { buf with data_u64s := oldOffset }
    let j3 := journal_pin_new_entry j2 1
    (.unlocked, bch2_journal_buf_init j3)
  | (r, s') => (r, { j with reservations := s' })

/-- `bch2_journal_halt` (journal.c lines 153-170).  The CAS loop returns at
once (no state change, no wakeups) when `cur_entry_offset` is already the
ERROR sentinel; otherwise it sets `cur_entry_offset = ERROR` and then wakes
the journal wait queue and both buffers' closure lists.  The boolean result
records whether the wakeups were performed. -/
def bch2_journal_halt (j : Journal) : Journal × Bool :=
  if j.reservations.cur_entry_offset = JOURNAL_ENTRY_ERROR_VAL then (j, false)
  else
    ({ j with reservations :=
        { j.reservations with cur_entry_offset := JOURNAL_ENTRY_ERROR_VAL } },
     true)

/-- `journal_entry_u64s_reserve` (journal.c lines 73-76): u64s kept free in
every entry for the btree roots / prio pointers appended at dispatch time. -/
def journal_entry_u64s_reserve : Nat :=
  BTREE_ID_NR * (JSET_KEYS_U64s + BKEY_EXTENT_U64s_MAX)

/-- The available-u64s computation of `journal_entry_open`
(journal.c lines 202-214): clamp the space query to the buffer capacity in
sectors, convert to u64 units, subtract the `jset` header and the
btree-root reserve, and floor at 0 (`max_t(ssize_t, 0L, u64s)`). -/
def journal_entry_open_u64s (j : Journal) : Int :=
  let sectors : Int := min j.entry_sectors ((journal_cur_buf j).size >>> 9 : Nat)
  max 0 (sectors * 512 / 8 - (JSET_HEADER_U64s : Int) - (journal_entry_u64s_reserve : Int))

/-- `journal_entry_open` (journal.c lines 182-248), called with the lock held
and the entry closed.  In order: a full pin fifo returns 0 (blocked); a
non-positive space query is returned as is; then `buf->disk_sectors` and
`j->cur_buf_sectors` are recorded, the available u64s are computed
(`journal_entry_open_u64s`); if they do not exceed the u64s already buffered
the function returns 0; otherwise `j->cur_entry_u64s` is published and the
CAS loop either returns `-EIO` (ERROR sentinel) or re-opens the entry by
setting `cur_entry_offset` to the buffered u64s.  Time statistics, the
delayed write timer and `journal_wake` are not modelled. -/
def journal_entry_open (j : Journal) : Int × Journal :=
  let buf := journal_cur_buf j
  if j.pin_capacity ≤ j.pin.length then (0, j)
  else if j.entry_sectors ≤ 0 then (j.entry_sectors, j)
  else
    let j1 := update_buf j j.reservations.idx
      fun b => { b with disk_sectors := j.entry_sectors.toNat }
    let sectors := min j.entry_sectors.toNat (buf.size >>> 9)
    let j2 := { j1 with cur_buf_sectors := sectors }
    let u64s := journal_entry_open_u64s j
    if u64s ≤ (buf.data_u64s : Int) then (0, j2)
    else
      let j3 := { j2 with cur_entry_u64s := u64s.toNat }
      if j.reservations.cur_entry_offset = JOURNAL_ENTRY_ERROR_VAL then (- EIO, j3)
      else
        (1, { j3 with reservations :=
              { j3.reservations with cur_entry_offset := buf.data_u64s } })

/-- A journal reservation ticket (`struct journal_res`, modelled from the
spec §4.1: "a ticket `(seq, offset, u64s, buf_idx)`"). -/
structure JournalRes where
  seq : Nat
  offset : Nat
  u64s : Nat
  idx : Bool
  deriving Repr, DecidableEq

/-- Modelled from the spec: `journal_res_get_fast` (`journal.h`), the
lock-free fast path (spec §4.1): fail when `cur_entry_offset + u64s_min`
exceeds `cur_entry_u64s` (both sentinels sit above every legal
`cur_entry_u64s`, so a closed or errored journal always fails here);
otherwise take `min u64s_max (cur_entry_u64s - cur_entry_offset)` u64s,
increment the current buffer's reservation count and advance the offset. -/
def journal_res_get_fast (j : Journal) (u64s_min u64s_max : Nat) :
    Option (JournalRes × Journal) :=
  let s := j.reservations
  if j.cur_entry_u64s < s.cur_entry_offset + u64s_min then none
  else
    let got := min u64s_max (j.cur_entry_u64s - s.cur_entry_offset)
    let s' := journal_state_inc { s with cur_entry_offset := s.cur_entry_offset + got }
    some ({ seq := (journal_cur_buf j).data_seq
            offset := s.cur_entry_offset
            u64s := got
            idx := s.idx },
          { j with reservations := s' })

/-- The `buf_size_want` update of `__journal_res_get`
(journal.c lines 332-336): if the open entry is short of buffer space but
the device had room for a bigger entry, grow `buf_size_want`. -/
def journal_update_buf_size_want (j : Journal) : Journal :=
  let buf := journal_cur_buf j
  if journal_entry_is_open j ∧ buf.size >>> 9 < buf.disk_sectors ∧
      buf.size < JOURNAL_ENTRY_SIZE_MAX then
    { j with buf_size_want := max j.buf_size_want (buf.size <<< 1) }
  else j

/-- `__journal_res_get` (journal.c lines 304-379).  The `goto retry` loop is
modelled with explicit fuel (fuel 0 behaves like the blocked return 0).
Each pass: fast path; fast path again (the locked recheck); the
`buf_size_want` update; then `journal_buf_switch` — ERROR yields `-EROFS`,
INUSE yields 0 (blocked), UNLOCKED retries, CLOSED falls through to
`journal_entry_open`, whose negative results are returned, positive results
retry, and 0 is returned as blocked. -/
def journal_res_get_loop : Nat → Journal → Nat → Nat → Int × Journal
  | 0, j, _, _ => (0, j)
  | fuel + 1, j, u64s_min, u64s_max =>
    match journal_res_get_fast j u64s_min u64s_max with
    | some (_, j') => (1, j')
    | none =>
      match journal_res_get_fast j u64s_min u64s_max with
      | some (_, j') => (1, j')
      | none =>
        let j := journal_update_buf_size_want j
        match journal_buf_switch j with
        | (.entryError, j') => (-EROFS, j')
        | (.entryInuse, j') => (0, j')
        | (.unlocked, j') => journal_res_get_loop fuel j' u64s_min u64s_max
        | (.entryClosed, j') =>
          let r := journal_entry_open j'
          if r.1 < 0 then r
          else if 0 < r.1 then journal_res_get_loop fuel r.2 u64s_min u64s_max
          else (0, r.2)

/-- `bch2_journal_res_get_slowpath` (journal.c lines 391-400): loop on the
journal wait queue until `__journal_res_get` returns nonzero, then map
positive results to 0.  The `wait_event` retries are modelled with fuel;
`none` stands for a caller still parked on the wait queue. -/
def bch2_journal_res_get_slowpath : Nat → Journal → Nat → Nat → Option (Int × Journal)
  | 0, _, _, _ => none
  | fuel + 1, j, u64s_min, u64s_max =>
    let r := journal_res_get_loop (fuel + 1) j u64s_min u64s_max
    if r.1 = 0 then bch2_journal_res_get_slowpath fuel r.2 u64s_min u64s_max
    else some (if r.1 < 0 then r.1 else 0, r.2)

/-- Modelled from the spec: `bch2_journal_res_get` (`journal.h`), the entry
point that tries the lock-free fast path and falls back to
`bch2_journal_res_get_slowpath` (spec §4.1). -/
def bch2_journal_res_get (fuel : Nat) (j : Journal) (u64s_min u64s_max : Nat) :
    Option (Int × Journal) :=
  match journal_res_get_fast j u64s_min u64s_max with
  | some (_, j') => some (0, j')
  | none => bch2_journal_res_get_slowpath fuel j u64s_min u64s_max

/-- Modelled from the spec: the width (in bits) of the index into a journal
buffer's `has_inode` bitmap, `ilog2(sizeof(buf->has_inode) * 8)`; the bitmap
declaration lives in `journal_types.h`, which is not among the sources.  The
claims are proved independently of the concrete value. -/
def HAS_INODE_BITS : Nat := 13

/-- Modelled from the spec: the kernel's multiplicative `hash_64(v, bits)`,
used to map an inode number to a bit of the `has_inode` bitmap ("the hash of
`inode`", spec §4.5). -/
def hash_64 (v bits : Nat) : Nat :=
  (v * 0x61C8864680B583EB % 2 ^ 64) >>> (64 - bits)

/-- `bch2_inode_journal_seq` (journal.c lines 285-302): hash the inode; if
neither buffer's `has_inode` bit is set return 0 without taking the lock;
otherwise return `journal_cur_seq` if the current buffer's bit is set, else
`journal_cur_seq - 1` if the previous buffer's bit is set, else 0.  The u64
subtraction is modelled as truncated `Nat` subtraction: the sequence counter
starts at 1 (`bch2_fs_journal_start`) and never wraps in practice, so the
wrap at `seq = 0` is not modelled. -/
def bch2_inode_journal_seq (j : Journal) (inode : Nat) : Nat :=
  let h := hash_64 inode HAS_INODE_BITS
  if ¬ j.buf0.has_inode h ∧ ¬ j.buf1.has_inode h then 0
  else if (journal_cur_buf j).has_inode h then j.seq
  else if (journal_prev_buf j).has_inode h then j.seq - 1
  else 0

/-- The sequence-selection step shared by `bch2_journal_flush`
(journal.c lines 666-684) and `bch2_journal_flush_async`
(journal.c lines 646-664): flush the open entry if any, else the previous
entry if `journal_cur_seq` is nonzero, else nothing. -/
def journal_flush_select (j : Journal) : Option Nat :=
  if journal_entry_is_open j then some j.seq
  else if j.seq ≠ 0 then some (j.seq - 1)
  else none

/-- `bch2_journal_flush` (journal.c lines 666-684), as the observable action
it takes: `.flushSeq s` when it goes on to call `bch2_journal_flush_seq s`,
and `.ret 0` when it returns 0 immediately without selecting a sequence. -/
inductive FlushAction where
  | ret (code : Int)
  | flushSeq (seq : Nat)
  deriving Repr, DecidableEq

/-- `bch2_journal_flush` (journal.c lines 666-684): select a sequence with
`journal_flush_select` and hand it to `bch2_journal_flush_seq`, or return 0
immediately when there is nothing to flush. -/
def bch2_journal_flush (j : Journal) : FlushAction :=
  match journal_flush_select j with
  | some s => .flushSeq s
  | none => .ret 0

/-- `bch2_journal_flush_async` (journal.c lines 646-664), as the sequence it
registers the continuation on via `bch2_journal_flush_seq_async`; `none`
when it returns without registering anything. -/
def bch2_journal_flush_async (j : Journal) : Option Nat :=
  journal_flush_select j

/-- Per-device journal ring (`struct journal_device`, modelled from the spec
§3 "Per-device journal state"): the circular array of bucket numbers with
its parallel `bucket_seq` array, the write head `cur_idx` and the
reclamation tail `last_idx`.  `nr` is the length of `buckets`. -/
structure JournalDevice where
  buckets : List Nat
  bucket_seq : List Nat
  cur_idx : Nat
  last_idx : Nat
  deriving Repr, DecidableEq

/-- One iteration of the growth loop of `__bch2_set_nr_journal_buckets`
(journal.c lines 744-763), given the bucket number obtained from the
allocator: insert the bucket into `buckets[]` (and a 0 into `bucket_seq[]`)
at position `last_idx` (`__array_insert_item` shifts `[last_idx, nr)` right
by one); then, guarded by `last_idx < nr` with `nr` the count before the
insertion, bump `cur_idx` when `cur_idx >= last_idx` and bump `last_idx`. -/
def add_journal_bucket (ja : JournalDevice) (bucket : Nat) : JournalDevice :=
  let nr := ja.buckets.length
  { buckets := ja.buckets.insertIdx ja.last_idx bucket
    bucket_seq := ja.bucket_seq.insertIdx ja.last_idx 0
    cur_idx :=
      if ja.last_idx < nr ∧ ja.last_idx ≤ ja.cur_idx then ja.cur_idx + 1 else ja.cur_idx
    last_idx := if ja.last_idx < nr then ja.last_idx + 1 else ja.last_idx }

/-- The `while (ja->nr < nr)` loop of `__bch2_set_nr_journal_buckets`
(journal.c lines 723-774), with the external allocator's successive results
supplied as the list `alloc`; an exhausted allocator is the `-ENOSPC` /
`-EAGAIN` error path. -/
def journal_buckets_grow (nr : Nat) : List Nat → JournalDevice → Int × JournalDevice
  | [], ja => if nr ≤ ja.buckets.length then (0, ja) else (-ENOSPC, ja)
  | b :: rest, ja =>
    if nr ≤ ja.buckets.length then (0, ja)
    else journal_buckets_grow nr rest (add_journal_bucket ja b)

/-- `__bch2_set_nr_journal_buckets` (journal.c lines 688-782): a target `nr`
not above the current count returns 0 at once without touching the device
("don't handle reducing nr of buckets yet", lines 697-699); otherwise the
growth loop runs.  The superblock resize and the `kzalloc`-and-swap of the
backing arrays reallocate storage without changing contents and are not
modelled separately. -/
def bch2_set_nr_journal_buckets (ja : JournalDevice) (nr : Nat) (alloc : List Nat) :
    Int × JournalDevice :=
  if nr ≤ ja.buckets.length then (0, ja)
  else journal_buckets_grow nr alloc ja

/-! ## Concrete states used by witnesses and counterexamples -/

/-- A buffer with everything cleared and 4096-byte capacity. -/
def bufW : JournalBuf :=
  { has_inode := fun _ => false, data_seq := 1, data_u64s := 0
    size := 4096, disk_sectors := 0 }

/-- A healthy journal: entry open at offset 100 of 200 u64s, one pinned
entry out of a capacity of 8, an 8-sector space query. -/
def jW : Journal :=
  { reservations :=
      { buf0_count := 0, buf1_count := 0, cur_entry_offset := 100
        idx := false, prev_buf_unwritten := false }
    seq := 1, cur_entry_u64s := 200, buf0 := bufW, buf1 := bufW
    pin := [1], pin_capacity := 8, buf_size_want := 0, cur_buf_sectors := 0
    entry_sectors := 8 }

/-- `jW` after the journal has been halted. -/
def jErr : Journal :=
  { jW with reservations :=
      { jW.reservations with cur_entry_offset := JOURNAL_ENTRY_ERROR_VAL } }

/-- A halted journal whose pin fifo is full. -/
def jFullErr : Journal := { jErr with pin := [1, 1, 1, 1, 1, 1, 1, 1] }

/-- `jW` with the current entry closed. -/
def jClosed : Journal :=
  { jW with reservations :=
      { jW.reservations with cur_entry_offset := JOURNAL_ENTRY_CLOSED_VAL } }

/-- A journal before its first entry: sequence number 0, entry closed. -/
def jSeqZero : Journal := { jClosed with seq := 0 }

/-- An open reservation word with two outstanding reservations on buffer 0. -/
def sOpen : JournalResState :=
  { buf0_count := 2, buf1_count := 0, cur_entry_offset := 100
    idx := false, prev_buf_unwritten := false }

/-- A device ring of four buckets with the write head at index 3 and the
reclamation tail at index 2. -/
def jaW : JournalDevice :=
  { buckets := [10, 20, 30, 40], bucket_seq := [5, 6, 7, 8]
    cur_idx := 3, last_idx := 2 }

/-! ## Shared lemmas -/

/-- `update_buf` touches only the buffers. -/
theorem update_buf_reservations (j : Journal) (i : Bool) (f : JournalBuf → JournalBuf) :
    (update_buf j i f).reservations = j.reservations := by
  unfold update_buf; split <;> rfl

/-- `bch2_journal_halt` always leaves the ERROR sentinel in place. -/
theorem halt_offset (j : Journal) :
    (bch2_journal_halt j).1.reservations.cur_entry_offset = JOURNAL_ENTRY_ERROR_VAL := by
  unfold bch2_journal_halt
  split
  · assumption
  · rfl

/-- `bch2_journal_halt` changes only the reservation word. -/
theorem halt_cur_entry_u64s (j : Journal) :
    (bch2_journal_halt j).1.cur_entry_u64s = j.cur_entry_u64s := by
  unfold bch2_journal_halt; split <;> rfl

/-- With the ERROR sentinel set, the fast path always fails: both sentinels
sit above every legal `cur_entry_u64s`. -/
theorem res_get_fast_error (j : Journal) (u64s_min u64s_max : Nat)
    (herr : j.reservations.cur_entry_offset = JOURNAL_ENTRY_ERROR_VAL)
    (hinv : j.cur_entry_u64s < JOURNAL_ENTRY_CLOSED_VAL) :
    journal_res_get_fast j u64s_min u64s_max = none := by
  have h : j.cur_entry_u64s < j.reservations.cur_entry_offset + u64s_min := by
    rw [herr]
    unfold JOURNAL_ENTRY_CLOSED_VAL at hinv
    unfold JOURNAL_ENTRY_ERROR_VAL
    omega
  simp [journal_res_get_fast, h]

/-- With the ERROR sentinel set, `journal_buf_switch` reports
`JOURNAL_ENTRY_ERROR` and leaves the journal untouched. -/
theorem buf_switch_error (j : Journal)
    (herr : j.reservations.cur_entry_offset = JOURNAL_ENTRY_ERROR_VAL) :
    journal_buf_switch j = (.entryError, j) := by
  unfold journal_buf_switch journal_buf_switch_res
  rw [herr]
  norm_num [JOURNAL_ENTRY_CLOSED_VAL, JOURNAL_ENTRY_ERROR_VAL]

/-- With the ERROR sentinel set, the entry is not open, so the
`buf_size_want` update is a no-op. -/
theorem update_buf_size_want_error (j : Journal)
    (herr : j.reservations.cur_entry_offset = JOURNAL_ENTRY_ERROR_VAL) :
    journal_update_buf_size_want j = j := by
  unfold journal_update_buf_size_want journal_entry_is_open
  rw [herr]
  norm_num [JOURNAL_ENTRY_CLOSED_VAL, JOURNAL_ENTRY_ERROR_VAL]

/-! ## Claims -/

/-- C1 (counterexample): the claim "after `halt()` every call to `res_get`
fails with IoErr (`-EIO`)" is false on the code: at the halted journal
`jErr`, `__journal_res_get` and the slow path return `-EROFS`
(`journal_buf_switch` reports `JOURNAL_ENTRY_ERROR` and line 345 of
journal.c maps it to `-EROFS`), not `-EIO`. -/
theorem res_get_after_halt_not_ioerr :
    jErr.reservations.cur_entry_offset = JOURNAL_ENTRY_ERROR_VAL ∧
    (journal_res_get_loop 1 jErr 10 10).1 ≠ - EIO ∧
    (bch2_journal_res_get_slowpath 1 jErr 10 10).map Prod.fst ≠ some (- EIO) := by
  refine ⟨rfl, ?_, ?_⟩ <;> decide

/-- C1 (amended): once the reservation state carries the ERROR sentinel —
in particular right after `bch2_journal_halt` — every call to `res_get`
(the `__journal_res_get` loop, `bch2_journal_res_get_slowpath`, and the
`bch2_journal_res_get` entry point) fails with `-EROFS`.  The hypothesis
`hinv` is the code's own invariant `BUG_ON(u64s >= JOURNAL_ENTRY_CLOSED_VAL)`
on the published `cur_entry_u64s`. -/
theorem res_get_after_halt_fails_erofs (j : Journal) (fuel u64s_min u64s_max : Nat)
    (herr : j.reservations.cur_entry_offset = JOURNAL_ENTRY_ERROR_VAL)
    (hinv : j.cur_entry_u64s < JOURNAL_ENTRY_CLOSED_VAL) :
    (journal_res_get_loop (fuel + 1) j u64s_min u64s_max).1 = -EROFS ∧
    (bch2_journal_res_get_slowpath (fuel + 1) j u64s_min u64s_max).map Prod.fst
      = some (-EROFS) ∧
    (bch2_journal_res_get (fuel + 1) j u64s_min u64s_max).map Prod.fst
      = some (-EROFS) ∧
    (bch2_journal_halt j).1 = j := by
  have hfast := res_get_fast_error j u64s_min u64s_max herr hinv
  have hloop : journal_res_get_loop (fuel + 1) j u64s_min u64s_max = (-EROFS, j) := by
    unfold journal_res_get_loop
    simp [hfast, update_buf_size_want_error j herr, buf_switch_error j herr]
  have hslow : bch2_journal_res_get_slowpath (fuel + 1) j u64s_min u64s_max
      = some (-EROFS, j) := by
    unfold bch2_journal_res_get_slowpath
    rw [hloop]
    norm_num [EROFS]
  refine ⟨by rw [hloop], by rw [hslow]; rfl, ?_, ?_⟩
  · unfold bch2_journal_res_get
    rw [hfast, hslow]
    rfl
  · unfold bch2_journal_halt
    rw [herr]
    simp

/-- C1 (witness): the amended theorem at the concrete halted journal
`jErr`. -/
theorem res_get_after_halt_fails_erofs_witness :
    (journal_res_get_loop 1 jErr 10 10).1 = -EROFS ∧
    (bch2_journal_res_get_slowpath 1 jErr 10 10).map Prod.fst = some (-EROFS) ∧
    (bch2_journal_res_get 1 jErr 10 10).map Prod.fst = some (-EROFS) ∧
    (bch2_journal_halt jErr).1 = jErr :=
  res_get_after_halt_fails_erofs jErr 0 10 10 (by decide) (by decide)

/-- C2: the ERROR sentinel is absorbing: each operation that mutates the
reservation word — `journal_buf_switch`, `journal_entry_open` and
`bch2_journal_halt` — leaves `cur_entry_offset = JOURNAL_ENTRY_ERROR_VAL`
in place when it was set before the operation; no transition clears it. -/
theorem error_sentinel_absorbing (j : Journal)
    (herr : j.reservations.cur_entry_offset = JOURNAL_ENTRY_ERROR_VAL) :
    (journal_buf_switch j).2.reservations.cur_entry_offset = JOURNAL_ENTRY_ERROR_VAL ∧
    (journal_entry_open j).2.reservations.cur_entry_offset = JOURNAL_ENTRY_ERROR_VAL ∧
    (bch2_journal_halt j).1.reservations.cur_entry_offset = JOURNAL_ENTRY_ERROR_VAL := by
  refine ⟨?_, ?_, halt_offset j⟩
  · rw [buf_switch_error j herr]
    exact herr
  · simp only [journal_entry_open]
    split_ifs with h1 h2 h3 <;> simp_all [update_buf_reservations]

/-- C2 (witness): the absorption theorem at the concrete halted journal
`jFullErr`. -/
theorem error_sentinel_absorbing_witness :
    (journal_buf_switch jFullErr).2.reservations.cur_entry_offset
      = JOURNAL_ENTRY_ERROR_VAL ∧
    (journal_entry_open jFullErr).2.reservations.cur_entry_offset
      = JOURNAL_ENTRY_ERROR_VAL ∧
    (bch2_journal_halt jFullErr).1.reservations.cur_entry_offset
      = JOURNAL_ENTRY_ERROR_VAL :=
  error_sentinel_absorbing jFullErr (by decide)

/-- C10: `bch2_journal_halt` is idempotent: when `cur_entry_offset` already
carries the ERROR sentinel it returns with the journal unchanged and
performs no wakeups (the CAS loop returns before `journal_wake` and the two
`closure_wake_up` calls, journal.c lines 160-161). -/
theorem halt_idempotent (j : Journal)
    (herr : j.reservations.cur_entry_offset = JOURNAL_ENTRY_ERROR_VAL) :
    bch2_journal_halt j = (j, false) := by
  unfold bch2_journal_halt
  rw [herr]
  simp

/-- C10 (witness): halting the already-halted journal `jErr` changes
nothing and fires no wakeups. -/
theorem halt_idempotent_witness : bch2_journal_halt jErr = (jErr, false) :=
  halt_idempotent jErr (by decide)

/-- C3: the successful close transition of `journal_buf_switch` on the
reservation word: from an open state (`cur_entry_offset` neither CLOSED nor
ERROR) with `prev_buf_unwritten = 0` it succeeds (`JOURNAL_UNLOCKED`),
bumps the current buffer's reservation count by the one sentinel "write"
reservation while leaving the other buffer's count alone, sets
`cur_entry_offset = CLOSED`, toggles `idx` and sets `prev_buf_unwritten`;
and from any state with `prev_buf_unwritten = 1` it never succeeds. -/
theorem buf_switch_close_transition (s : JournalResState)
    (h1 : s.cur_entry_offset ≠ JOURNAL_ENTRY_CLOSED_VAL)
    (h2 : s.cur_entry_offset ≠ JOURNAL_ENTRY_ERROR_VAL)
    (h3 : s.prev_buf_unwritten = false) :
    (journal_buf_switch_res s).1 = .unlocked ∧
    (journal_buf_switch_res s).2.cur_entry_offset = JOURNAL_ENTRY_CLOSED_VAL ∧
    (journal_buf_switch_res s).2.idx = !s.idx ∧
    (journal_buf_switch_res s).2.prev_buf_unwritten = true ∧
    journal_state_count (journal_buf_switch_res s).2 s.idx
      = journal_state_count s s.idx + 1 ∧
    journal_state_count (journal_buf_switch_res s).2 (!s.idx)
      = journal_state_count s (!s.idx) ∧
    (∀ t : JournalResState, t.prev_buf_unwritten = true →
      (journal_buf_switch_res t).1 ≠ .unlocked) := by
  refine ⟨?_, ?_, ?_, ?_, ?_, ?_, ?_⟩
  · simp [journal_buf_switch_res, h1, h2, h3]
  · simp [journal_buf_switch_res, h1, h2, h3]
  · cases hidx : s.idx <;>
      simp [journal_buf_switch_res, journal_state_inc, h1, h2, h3, hidx]
  · simp [journal_buf_switch_res, h1, h2, h3]
  · cases hidx : s.idx <;>
      simp [journal_buf_switch_res, journal_state_inc, journal_state_count,
        h1, h2, h3, hidx]
  · cases hidx : s.idx <;>
      simp [journal_buf_switch_res, journal_state_inc, journal_state_count,
        h1, h2, h3, hidx]
  · intro t ht
    unfold journal_buf_switch_res
    split_ifs <;> simp_all

/-- C3 (witness): the close transition at the concrete open state `sOpen`. -/
theorem buf_switch_close_transition_witness :
    (journal_buf_switch_res sOpen).1 = .unlocked ∧
    (journal_buf_switch_res sOpen).2.cur_entry_offset = JOURNAL_ENTRY_CLOSED_VAL ∧
    (journal_buf_switch_res sOpen).2.idx = !sOpen.idx ∧
    (journal_buf_switch_res sOpen).2.prev_buf_unwritten = true ∧
    journal_state_count (journal_buf_switch_res sOpen).2 sOpen.idx
      = journal_state_count sOpen sOpen.idx + 1 ∧
    journal_state_count (journal_buf_switch_res sOpen).2 (!sOpen.idx)
      = journal_state_count sOpen (!sOpen.idx) ∧
    (∀ t : JournalResState, t.prev_buf_unwritten = true →
      (journal_buf_switch_res t).1 ≠ .unlocked) :=
  buf_switch_close_transition sOpen (by decide) (by decide) (by decide)

/-- C4 (counterexample): the claim "whenever `journal_entry_open` is called
while the sentinel is ERROR it returns IoErr, and the Blocked result for a
full pin fifo occurs only when not in the ERROR state" is false on the
code: the full-fifo check (journal.c line 193) runs before the ERROR check
(line 230), so at the halted journal `jFullErr` with a full pin fifo,
`journal_entry_open` returns 0 (Blocked), not `-EIO`. -/
theorem entry_open_error_counterexample :
    jFullErr.reservations.cur_entry_offset = JOURNAL_ENTRY_ERROR_VAL ∧
    jFullErr.pin_capacity ≤ jFullErr.pin.length ∧
    (journal_entry_open jFullErr).1 = 0 ∧
    (journal_entry_open jFullErr).1 ≠ - EIO := by
  refine ⟨rfl, by decide, by decide, by decide⟩

/-- C4 (amended): the full-fifo Blocked result takes priority over the
ERROR sentinel: `journal_entry_open` returns 0 (Blocked) whenever the pin
fifo is full, ERROR or not; the ERROR sentinel yields `-EIO` only once the
earlier returns do not fire — the fifo has a free slot, the per-device
space query is positive and the computed u64s exceed the u64s already
buffered. -/
theorem entry_open_error_amended (j : Journal)
    (hfifo : j.pin.length < j.pin_capacity)
    (hsec : 0 < j.entry_sectors)
    (hu : ((journal_cur_buf j).data_u64s : Int) < journal_entry_open_u64s j)
    (herr : j.reservations.cur_entry_offset = JOURNAL_ENTRY_ERROR_VAL) :
    (journal_entry_open j).1 = - EIO ∧
    (∀ j2 : Journal, j2.pin_capacity ≤ j2.pin.length →
      (journal_entry_open j2).1 = 0) := by
  constructor
  · simp only [journal_entry_open]
    rw [if_neg (by omega), if_neg (by omega), if_neg (by omega), if_pos herr]
  · intro j2 h
    simp [journal_entry_open, h]

/-- C4 (witness): the amended theorem at the halted journal `jErr`, whose
pin fifo has free slots and whose space query yields 445 available u64s. -/
theorem entry_open_error_amended_witness :
    (journal_entry_open jErr).1 = - EIO ∧
    (∀ j2 : Journal, j2.pin_capacity ≤ j2.pin.length →
      (journal_entry_open j2).1 = 0) :=
  entry_open_error_amended jErr (by decide) (by decide) (by decide) (by decide)

/-- C5: `bch2_inode_journal_seq` returns the highest sequence number among
the two live buffers whose `has_inode` bitmap has the bit `hash_64 inode`
set — the current sequence number if the current buffer's bit is set, else
the previous sequence number if the previous buffer's bit is set — and 0
when neither bit is set; the lock-free pre-check on `buf[0]` / `buf[1]`
never changes the answer. -/
theorem inode_journal_seq_spec (j : Journal) (inode : Nat) :
    bch2_inode_journal_seq j inode =
      (if (journal_cur_buf j).has_inode (hash_64 inode HAS_INODE_BITS) then j.seq
       else if (journal_prev_buf j).has_inode (hash_64 inode HAS_INODE_BITS) then
         j.seq - 1
       else 0) := by
  unfold bch2_inode_journal_seq journal_cur_buf journal_prev_buf
  cases hidx : j.reservations.idx <;>
    cases h0 : j.buf0.has_inode (hash_64 inode HAS_INODE_BITS) <;>
    cases h1 : j.buf1.has_inode (hash_64 inode HAS_INODE_BITS) <;>
    simp [hidx, h0, h1]

/-- C6: when `journal_entry_open` succeeds, the published `cur_entry_u64s`
equals `max 0 ((min entry_sectors (buf.size >> 9) << 9) / sizeof(u64) -
sizeof(jset)/sizeof(u64) - BTREE_ID_NR * (JSET_KEYS_U64s +
BKEY_EXTENT_U64s_MAX))`: the clamped per-device space result minus the
header minus the fixed btree-root / prio-pointer reserve. -/
theorem entry_open_publishes_u64s (j : Journal)
    (h : (journal_entry_open j).1 = 1) :
    (journal_entry_open j).2.cur_entry_u64s =
      (max (0 : Int) (min j.entry_sectors (((journal_cur_buf j).size >>> 9 : Nat) : Int) * 512 / 8
        - ((JSET_HEADER_U64s : Nat) : Int)
        - ((BTREE_ID_NR * (JSET_KEYS_U64s + BKEY_EXTENT_U64s_MAX) : Nat) : Int))).toNat := by
  simp only [journal_entry_open] at h ⊢
  split_ifs at h ⊢ with h1 h2 h3 h4
  · exact absurd h (by norm_num)
  · exact absurd h (by omega)
  · exact absurd h (by norm_num)
  · exact absurd h (by norm_num [ EIO])
  · simp [journal_entry_open_u64s, journal_entry_u64s_reserve]

/-- C6 (witness): at the concrete journal `jClosed` (entry closed, 8-sector
space query, 4096-byte buffer) `journal_entry_open` succeeds and publishes
`cur_entry_u64s = 445 = 8 * 512 / 8 - 7 - 6 * (2 + 8)`. -/
theorem entry_open_publishes_u64s_witness :
    (journal_entry_open jClosed).2.cur_entry_u64s =
      (max (0 : Int) (min jClosed.entry_sectors (((journal_cur_buf jClosed).size >>> 9 : Nat) : Int) * 512 / 8
        - ((JSET_HEADER_U64s : Nat) : Int)
        - ((BTREE_ID_NR * (JSET_KEYS_U64s + BKEY_EXTENT_U64s_MAX) : Nat) : Int))).toNat :=
  entry_open_publishes_u64s jClosed (by decide)

/-! ### `List.insertIdx` access lemmas used by C7 -/

theorem getElem?_insertIdx_of_lt {α : Type} (l : List α) (x : α) :
    ∀ n i, i < n → (l.insertIdx n x)[i]? = l[i]? := by
  induction l with
  | nil =>
    intro n i h
    cases n with
    | zero => omega
    | succ m => simp [List.insertIdx_succ_nil]
  | cons hd tl ih =>
    intro n i h
    cases n with
    | zero => omega
    | succ m =>
      rw [List.insertIdx_succ_cons]
      cases i with
      | zero => simp
      | succ k => simpa using ih m k (by omega)

theorem getElem?_insertIdx_self {α : Type} (l : List α) (x : α) :
    ∀ n, n ≤ l.length → (l.insertIdx n x)[n]? = some x := by
  induction l with
  | nil =>
    intro n h
    have : n = 0 := by simpa using h
    subst this
    simp
  | cons hd tl ih =>
    intro n h
    cases n with
    | zero => simp
    | succ m =>
      rw [List.insertIdx_succ_cons]
      simpa using ih m (by simpa using h)

theorem getElem?_insertIdx_of_ge {α : Type} (l : List α) (x : α) :
    ∀ n i, n ≤ i → (l.insertIdx n x)[i + 1]? = l[i]? := by
  induction l with
  | nil =>
    intro n i h
    cases n with
    | zero => simp
    | succ m => simp [List.insertIdx_succ_nil]
  | cons hd tl ih =>
    intro n i h
    cases n with
    | zero => simp
    | succ m =>
      rw [List.insertIdx_succ_cons]
      cases i with
      | zero => omega
      | succ k => simpa using ih m k (by omega)

/-- C7: one growth step of `__bch2_set_nr_journal_buckets` on a valid ring
(`last_idx ≤ nr`, `cur_idx < nr`): the new bucket lands at index `last_idx`
with `bucket_seq` 0, entries below the insert point keep their index,
entries at or above it shift up by one (relative order preserved), and
`cur_idx` is bumped by one exactly when it was at or past the insert point,
so that it keeps denoting the same bucket. -/
theorem add_journal_bucket_spec (ja : JournalDevice) (b : Nat)
    (hlast : ja.last_idx ≤ ja.buckets.length)
    (hseq : ja.last_idx ≤ ja.bucket_seq.length)
    (hcur : ja.cur_idx < ja.buckets.length) :
    (add_journal_bucket ja b).buckets.length = ja.buckets.length + 1 ∧
    (add_journal_bucket ja b).buckets[ja.last_idx]? = some b ∧
    (add_journal_bucket ja b).bucket_seq[ja.last_idx]? = some 0 ∧
    (∀ i, i < ja.last_idx →
      (add_journal_bucket ja b).buckets[i]? = ja.buckets[i]?) ∧
    (∀ i, ja.last_idx ≤ i →
      (add_journal_bucket ja b).buckets[i + 1]? = ja.buckets[i]?) ∧
    (add_journal_bucket ja b).cur_idx =
      (if ja.last_idx ≤ ja.cur_idx then ja.cur_idx + 1 else ja.cur_idx) ∧
    (add_journal_bucket ja b).buckets[(add_journal_bucket ja b).cur_idx]? =
      ja.buckets[ja.cur_idx]? := by
  have hlen : (add_journal_bucket ja b).buckets.length = ja.buckets.length + 1 := by
    simpa [add_journal_bucket] using List.length_insertIdx ja.last_idx ja.buckets hlast
  have hbump : (add_journal_bucket ja b).cur_idx =
      (if ja.last_idx ≤ ja.cur_idx then ja.cur_idx + 1 else ja.cur_idx) := by
    simp only [add_journal_bucket]
    split_ifs with h1 h2 h3 <;> first | rfl | omega
  refine ⟨hlen, ?_, ?_, ?_, ?_, hbump, ?_⟩
  · simpa [add_journal_bucket] using getElem?_insertIdx_self ja.buckets b ja.last_idx hlast
  · simpa [add_journal_bucket] using getElem?_insertIdx_self ja.bucket_seq 0 ja.last_idx hseq
  · intro i hi
    simpa [add_journal_bucket] using getElem?_insertIdx_of_lt ja.buckets b ja.last_idx i hi
  · intro i hi
    simpa [add_journal_bucket] using getElem?_insertIdx_of_ge ja.buckets b ja.last_idx i hi
  · rw [hbump]
    split_ifs with h
    · simpa [add_journal_bucket] using
        getElem?_insertIdx_of_ge ja.buckets b ja.last_idx ja.cur_idx h
    · simpa [add_journal_bucket] using
        getElem?_insertIdx_of_lt ja.buckets b ja.last_idx ja.cur_idx (by omega)

/-- C7 (witness): the growth step on the concrete ring `jaW` (four buckets,
`cur_idx = 3`, `last_idx = 2`) inserting bucket 99. -/
theorem add_journal_bucket_spec_witness :
    (add_journal_bucket jaW 99).buckets.length = jaW.buckets.length + 1 ∧
    (add_journal_bucket jaW 99).buckets[jaW.last_idx]? = some 99 ∧
    (add_journal_bucket jaW 99).bucket_seq[jaW.last_idx]? = some 0 ∧
    (∀ i, i < jaW.last_idx →
      (add_journal_bucket jaW 99).buckets[i]? = jaW.buckets[i]?) ∧
    (∀ i, jaW.last_idx ≤ i →
      (add_journal_bucket jaW 99).buckets[i + 1]? = jaW.buckets[i]?) ∧
    (add_journal_bucket jaW 99).cur_idx =
      (if jaW.last_idx ≤ jaW.cur_idx then jaW.cur_idx + 1 else jaW.cur_idx) ∧
    (add_journal_bucket jaW 99).buckets[(add_journal_bucket jaW 99).cur_idx]? =
      jaW.buckets[jaW.cur_idx]? :=
  add_journal_bucket_spec jaW 99 (by decide) (by decide) (by decide)

/-- C8: a call to `bch2_set_nr_journal_buckets` with a target `nr` not above
the device's current number of journal buckets returns 0 and leaves the
whole per-device ring — `buckets[]`, `bucket_seq[]`, `cur_idx`, `last_idx`
and `nr` — unchanged (journal.c lines 697-699). -/
theorem set_nr_journal_buckets_noop (ja : JournalDevice) (nr : Nat) (alloc : List Nat)
    (h : nr ≤ ja.buckets.length) :
    bch2_set_nr_journal_buckets ja nr alloc = (0, ja) := by
  simp [bch2_set_nr_journal_buckets, h]

/-- C8 (witness): shrinking the concrete four-bucket ring `jaW` to 3 is a
no-op returning 0. -/
theorem set_nr_journal_buckets_noop_witness :
    bch2_set_nr_journal_buckets jaW 3 [99] = (0, jaW) :=
  set_nr_journal_buckets_noop jaW 3 [99] (by decide)

/-- C9: with `journal_cur_seq = 0` and no open entry, `bch2_journal_flush`
returns 0 immediately and `bch2_journal_flush_async` returns without
registering the continuation: neither selects a sequence to flush nor
forces a write (journal.c lines 657-659 and 677-679). -/
theorem flush_noop_when_seq_zero (j : Journal)
    (hseq : j.seq = 0) (hopen : journal_entry_is_open j = false) :
    bch2_journal_flush j = .ret 0 ∧
    bch2_journal_flush_async j = none ∧
    journal_flush_select j = none := by
  have hsel : journal_flush_select j = none := by
    simp [journal_flush_select, hseq, hopen]
  exact ⟨by simp [bch2_journal_flush, hsel], hsel, hsel⟩

/-- C9 (witness): the no-op flush at the concrete journal `jSeqZero`
(sequence number 0, entry closed). -/
theorem flush_noop_when_seq_zero_witness :
    bch2_journal_flush jSeqZero = .ret 0 ∧
    bch2_journal_flush_async jSeqZero = none ∧
    journal_flush_select jSeqZero = none :=
  flush_noop_when_seq_zero jSeqZero (by decide) (by decide)

end BcachefsJournal
